import Mathlib

/-!
Verification of the MySmartBike BLE integration's message decoder
(`custom_components/mysmartbike_ble/parsers.py`) and connection lifecycle
controller (`custom_components/mysmartbike_ble/coordinator.py`).

Byte frames are modelled as `List Nat` (each element one byte, `< 256`);
decoded text is a `List Nat` of Unicode code points.  Python floats produced
by dividing small integers by 10 or 10000 are modelled as rationals (`ℚ`);
every equality the development checks on such values coincides with the
Python float comparison for the magnitudes involved.  Fallible Python code
(the `int(chr(...))` conversion, which raises `ValueError` on a non-digit
character) is modelled with `Except`.
-/

/-! ### Byte readers (`parsers.py`, `read16` / `read24` / `read32` /
`read_unsigned_byte`).  Out-of-range indices read as 0; every call site in
the parsers is guarded by a length check that keeps indices in bounds. -/

/-- `read16(data, offset)`: big-endian 16-bit read. -/
def read16 (data : List Nat) (offset : Nat) : Nat :=
  (((data.getD offset 0) &&& 0xFF) <<< 8) ||| ((data.getD (offset + 1) 0) &&& 0xFF)

/-- `read24(data, offset)`: big-endian 24-bit read. -/
def read24 (data : List Nat) (offset : Nat) : Nat :=
  (((data.getD offset 0) &&& 0xFF) <<< 16)
    ||| (((data.getD (offset + 1) 0) &&& 0xFF) <<< 8)
    ||| ((data.getD (offset + 2) 0) &&& 0xFF)

/-- `read32(data, offset)`: big-endian 32-bit read. -/
def read32 (data : List Nat) (offset : Nat) : Nat :=
  (((data.getD offset 0) &&& 0xFF) <<< 24)
    ||| (((data.getD (offset + 1) 0) &&& 0xFF) <<< 16)
    ||| (((data.getD (offset + 2) 0) &&& 0xFF) <<< 8)
    ||| ((data.getD (offset + 3) 0) &&& 0xFF)

/-- `read_unsigned_byte(byte_val)`. -/
def read_unsigned_byte (byte_val : Nat) : Nat := byte_val &&& 0xFF

/-! ### Permissive text decoding.

`bytes.decode("ascii", errors="ignore")` keeps exactly the bytes below 128.
`bytes.decode("utf-8", errors="ignore")` decodes well-formed UTF-8 sequences
and drops the maximal invalid subpart on error (CPython's behaviour since
3.3): an invalid lead byte is dropped alone; a truncated sequence drops the
lead together with its valid continuation bytes. -/

/-- `message.decode("ascii", errors="ignore")`. -/
def ascii_decode_ignore (message : List Nat) : List Nat :=
  message.filter (fun b => b < 128)

/-- A UTF-8 continuation byte. -/
def utf8_cont (b : Nat) : Bool := 0x80 ≤ b && b ≤ 0xBF

/-- Worker for `utf8_decode_ignore`; the fuel dominates the length of the
remaining input, and every step consumes at least one byte. -/
def utf8_decode_ignore_aux : Nat → List Nat → List Nat
  | 0, _ => []
  | _ + 1, [] => []
  | fuel + 1, b :: rest =>
    if b < 0x80 then
      b :: utf8_decode_ignore_aux fuel rest
    else if 0xC2 ≤ b ∧ b ≤ 0xDF then
      match rest with
      | [] => []
      | c1 :: rest1 =>
        if utf8_cont c1 then
          ((b - 0xC0) * 0x40 + (c1 - 0x80)) :: utf8_decode_ignore_aux fuel rest1
        else utf8_decode_ignore_aux fuel rest
    else if 0xE0 ≤ b ∧ b ≤ 0xEF then
      let lo1 := if b = 0xE0 then 0xA0 else 0x80
      let hi1 := if b = 0xED then 0x9F else 0xBF
      match rest with
      | [] => []
      | c1 :: rest1 =>
        if lo1 ≤ c1 ∧ c1 ≤ hi1 then
          match rest1 with
          | [] => []
          | c2 :: rest2 =>
            if utf8_cont c2 then
              ((b - 0xE0) * 0x1000 + (c1 - 0x80) * 0x40 + (c2 - 0x80))
                :: utf8_decode_ignore_aux fuel rest2
            else utf8_decode_ignore_aux fuel rest1
        else utf8_decode_ignore_aux fuel rest
    else if 0xF0 ≤ b ∧ b ≤ 0xF4 then
      let lo1 := if b = 0xF0 then 0x90 else 0x80
      let hi1 := if b = 0xF4 then 0x8F else 0xBF
      match rest with
      | [] => []
      | c1 :: rest1 =>
        if lo1 ≤ c1 ∧ c1 ≤ hi1 then
          match rest1 with
          | [] => []
          | c2 :: rest2 =>
            if utf8_cont c2 then
              match rest2 with
              | [] => []
              | c3 :: rest3 =>
                if utf8_cont c3 then
                  ((b - 0xF0) * 0x40000 + (c1 - 0x80) * 0x1000
                      + (c2 - 0x80) * 0x40 + (c3 - 0x80))
                    :: utf8_decode_ignore_aux fuel rest3
                else utf8_decode_ignore_aux fuel rest2
            else utf8_decode_ignore_aux fuel rest1
        else utf8_decode_ignore_aux fuel rest
    else
      utf8_decode_ignore_aux fuel rest

/-- `message.decode("utf-8", errors="ignore")`. -/
def utf8_decode_ignore (message : List Nat) : List Nat :=
  utf8_decode_ignore_aux message.length message

/-- Python `text.startswith(pre)` on code-point lists. -/
def starts_with (text pre : List Nat) : Bool :=
  text.take pre.length == pre

/-- Python `text.endswith(suf)` on code-point lists. -/
def ends_with (text suf : List Nat) : Bool :=
  text.drop (text.length - suf.length) == suf

/-! ### Data model (`parsers.py`, `BikeDataParser.__init__` and the
dictionaries built by the decode routines). -/

/-- One decoded battery reading (the dictionary built by
`parse_battery_message`). -/
structure BatteryData where
  voltage : ℚ
  soc : Nat
  temperature : Nat
  current : ℚ
  nominal_capacity : ℚ
  remaining_wh : ℚ
  cycles : Option Nat
  deriving Repr, DecidableEq

/-- One decoded motor reading (the dictionary built by
`parse_motor_message`). -/
structure MotorData where
  assist_level : Nat
  temperature_celsius : Nat
  power_amp : ℚ
  speed_kmh : ℚ
  wheel_speed_rpm : Nat
  torque_motor_pct : Nat
  power_max_amp : ℚ
  max_torque_motor_pct : Nat
  deriving Repr, DecidableEq

/-- One decoded assist reading: either the numeric triple of the 10-byte
frame or the synchronization result of the 9-byte frame. -/
inductive AssistData
  | levels (least greatest current : Nat)
  | sync (sync_result : List Nat) (success : Bool)
  deriving Repr, DecidableEq

/-- One decoded EBM reading (the dictionary built by `parse_ebm_message`). -/
structure EbmData where
  odometry : ℚ
  autonomy : ℚ
  is_light_on : Bool
  status : Nat
  deriving Repr, DecidableEq

/-- The five-slot Bike State aggregate (`self.state` in
`BikeDataParser.__init__`). -/
structure BikeState where
  battery_primary : Option BatteryData
  battery_secondary : Option BatteryData
  motor : Option MotorData
  assist : Option AssistData
  ebm : Option EbmData
  deriving Repr, DecidableEq

/-- Full parser state: the Bike State plus the cross-message memory
(`self.battery_packet_counter`, `self.vin`, `self.protocol_version`). -/
structure ParserState where
  state : BikeState
  battery_packet_counter : Nat
  vin : Option (List Nat)
  protocol_version : Option (List Nat)
  deriving Repr, DecidableEq

/-- `BikeDataParser.__init__`: all slots empty, counter zero, stickies
absent. -/
def initState : ParserState :=
  { state :=
      { battery_primary := none
        battery_secondary := none
        motor := none
        assist := none
        ebm := none }
    battery_packet_counter := 0
    vin := none
    protocol_version := none }

/-- The one Python exception the decoder can raise: `ValueError` from
`int(chr(b))` when `b` is not an ASCII digit. -/
inductive PyError
  | valueError
  deriving Repr, DecidableEq

/-- `int(chr(b))` for a byte `b`: succeeds exactly on the ASCII digits
0x30–0x39 (no byte in 128–255 is a Unicode decimal digit), raising
`ValueError` otherwise. -/
def int_of_chr (b : Nat) : Except PyError Nat :=
  if 0x30 ≤ b ∧ b ≤ 0x39 then .ok (b - 0x30) else .error .valueError

/-! ### Message length constants (`const.py`). -/

def BATTERY_MESSAGE_LENGTH : Nat := 17
def MOTOR_MESSAGE_LENGTH : Nat := 18
def EBM_MESSAGE_LENGTH : Nat := 17

/-! ### Battery decode (`parse_battery_message`). -/

/-- `combined_raw = read16(message, 15) if len(message) >= 19 else None`. -/
def battery_combined_raw (message : List Nat) : Option Nat :=
  if 19 ≤ message.length then some (read16 message 15) else none

/-- `battery_number = (combined_raw // 10000) if combined_raw else 1`
(Python truthiness: both `None` and `0` take the default). -/
def battery_number (message : List Nat) : Nat :=
  match battery_combined_raw message with
  | some v => if v ≠ 0 then v / 10000 else 1
  | none => 1

/-- `cycles = (combined_raw % 10000) if combined_raw else None`. -/
def battery_cycles (message : List Nat) : Option Nat :=
  match battery_combined_raw message with
  | some v => if v ≠ 0 then some (v % 10000) else none
  | none => none

/-- The battery data dictionary built by `parse_battery_message`. -/
def battery_data_of (message : List Nat) : BatteryData :=
  { voltage := (read16 message 5 : ℚ) / 10
    soc := read_unsigned_byte (message.getD 7 0)
    temperature := message.getD 8 0
    current := (read16 message 9 : ℚ) / 10
    nominal_capacity := (read16 message 11 : ℚ) / 10
    remaining_wh := (read16 message 13 : ℚ) / 10
    cycles := battery_cycles message }

/-- The explicit all-zero reading forced into `battery_secondary` after four
consecutive primary packets. -/
def zero_battery_data : BatteryData :=
  { voltage := 0
    soc := 0
    temperature := 0
    current := 0
    nominal_capacity := 0
    remaining_wh := 0
    cycles := none }

/-- `BikeDataParser.parse_battery_message`: returns the decoded reading (or
`None` when the frame is shorter than 17 bytes) together with the updated
parser state. -/
def parse_battery_message (st : ParserState) (message : List Nat) :
    Option BatteryData × ParserState :=
  if message.length < BATTERY_MESSAGE_LENGTH then (none, st)
  else
    let data := battery_data_of message
    if battery_number message = 2 then
      (some data,
        { st with
          battery_packet_counter := 0
          state := { st.state with battery_secondary := some data } })
    else if battery_number message = 1 then
      let counter := st.battery_packet_counter + 1
      let st1 :=
        { st with
          battery_packet_counter := counter
          state := { st.state with battery_primary := some data } }
      if 4 ≤ counter then
        (some data,
          { st1 with state := { st1.state with battery_secondary := some zero_battery_data } })
      else (some data, st1)
    else (some data, st)

/-! ### Motor decode (`parse_motor_message`). -/

/-- `BikeDataParser.parse_motor_message`. -/
def parse_motor_message (st : ParserState) (message : List Nat) :
    Option MotorData × ParserState :=
  if message.length < MOTOR_MESSAGE_LENGTH then (none, st)
  else
    let data : MotorData :=
      { assist_level := message.getD 5 0
        temperature_celsius := message.getD 6 0
        power_amp := (read16 message 7 : ℚ) / 10
        speed_kmh := (read16 message 9 : ℚ) / 10
        wheel_speed_rpm := read_unsigned_byte (message.getD 11 0)
        torque_motor_pct := message.getD 12 0
        power_max_amp := (read16 message 13 : ℚ) / 10
        max_torque_motor_pct := message.getD 15 0 }
    (some data, { st with state := { st.state with motor := some data } })

/-! ### Assist decode (`parse_assist_level_message`).

The 10-byte branch converts each payload byte with `int(chr(byte))`, which
raises `ValueError` on a non-digit byte before any state is touched;
the 9-byte branch decodes the frame as UTF-8 (ignoring errors) and takes
characters 5 and 6 as the synchronization result. -/

/-- `BikeDataParser.parse_assist_level_message`. -/
def parse_assist_level_message (st : ParserState) (message : List Nat) :
    Except PyError (Option AssistData × ParserState) :=
  if message.length = 10 then
    match int_of_chr (message.getD 5 0), int_of_chr (message.getD 6 0),
        int_of_chr (message.getD 7 0) with
    | .ok mn, .ok mx, .ok cur =>
      let data := AssistData.levels mn mx cur
      .ok (some data, { st with state := { st.state with assist := some data } })
    | _, _, _ => .error .valueError
  else if message.length = 9 then
    let result := ((utf8_decode_ignore message).drop 5).take 2
    let data := AssistData.sync result (result == [0x4F, 0x4B])
    .ok (some data, { st with state := { st.state with assist := some data } })
  else
    .ok (none, st)

/-! ### VIN decode (`parse_vin_message`). -/

/-- The code points of `"$s$V#"`. -/
def text_sV : List Nat := [0x24, 0x73, 0x24, 0x56, 0x23]

/-- The code points of `"#@"`. -/
def text_hash_at : List Nat := [0x23, 0x40]

/-- The code points of `"R0"`. -/
def text_R0 : List Nat := [0x52, 0x30]

/-- The second (`R0...@`) branch of `parse_vin_message`, reached whenever the
standard shape did not yield a 17-character serial. -/
def parse_vin_r0 (st : ParserState) (text : List Nat) :
    Option (List Nat) × ParserState :=
  if text.length = 20 ∧ ends_with text [0x40] ∧ starts_with text text_R0 then
    let vin := (text.take (text.length - 1)).drop 2
    if vin.length = 17 then (some vin, { st with vin := some vin })
    else (none, st)
  else (none, st)

/-- `BikeDataParser.parse_vin_message`: decode as UTF-8 (ignoring errors),
try the `$s$V#<serial>#@` shape first, then the 20-character `R0<serial>@`
shape; any other shape returns `None` with the state untouched. -/
def parse_vin_message (st : ParserState) (message : List Nat) :
    Option (List Nat) × ParserState :=
  let text := utf8_decode_ignore message
  if starts_with text text_sV ∧ ends_with text text_hash_at then
    let vin := (text.take (text.length - 2)).drop 5
    if vin.length = 17 then (some vin, { st with vin := some vin })
    else parse_vin_r0 st text
  else parse_vin_r0 st text

/-! ### Protocol version decode (`parse_protocol_message`). -/

/-- The code points of `"$s$P#"`. -/
def text_sP : List Nat := [0x24, 0x73, 0x24, 0x50, 0x23]

/-- The code points of `"ER"`. -/
def text_ER : List Nat := [0x45, 0x52]

/-- `BikeDataParser.parse_protocol_message`: the `$s$P#<version>#@` shape
with a non-empty version other than the literal `"ER"` becomes sticky; the
`"ER"` and empty versions, and every other shape, return `None` with the
state untouched. -/
def parse_protocol_message (st : ParserState) (message : List Nat) :
    Option (List Nat) × ParserState :=
  let text := utf8_decode_ignore message
  if starts_with text text_sP ∧ ends_with text text_hash_at then
    let version := (text.take (text.length - 2)).drop 5
    if version ≠ [] ∧ version ≠ text_ER then
      (some version, { st with protocol_version := some version })
    else (none, st)
  else (none, st)

/-! ### EBM decode (`parse_ebm_message`). -/

/-- `BikeDataParser.parse_ebm_message`. -/
def parse_ebm_message (st : ParserState) (message : List Nat) :
    Option EbmData × ParserState :=
  if message.length < EBM_MESSAGE_LENGTH then (none, st)
  else if message.length < 15 then (none, st)
  else
    let data : EbmData :=
      { odometry := (read32 message 5 : ℚ) / 10000
        autonomy := (read32 message 9 : ℚ) / 10000
        is_light_on := message.getD 13 0 == 1
        status := read_unsigned_byte (message.getD 14 0) }
    (some data, { st with state := { st.state with ebm := some data } })

/-! ### Classification (`recognize_message_type`). -/

/-- The fixed enumeration of message kinds. -/
inductive MsgKind
  | battery
  | motor
  | assist
  | ebm
  | vin
  | protocol
  | diagnosis_init
  | diagnosis_read
  | diagnosis_end
  | security_session
  | coding_device
  | write_vin
  | status
  | engine_maps
  | reset_trip
  | calibrate
  | security_challenge
  | unknown
  deriving Repr, DecidableEq

/-- `BikeDataParser.recognize_message_type`: classify a raw frame, decoding
it permissively as ASCII (bytes ≥ 128 dropped).  The delimited `$...#@`
family dispatches on the characters at offsets 1 and 3; the terminal-`@`
family dispatches on the first character alone. -/
def recognize_message_type (message : List Nat) : MsgKind :=
  let text := ascii_decode_ignore message
  if starts_with text [0x24] ∧ ends_with text text_hash_at then
    let main_type := text.getD 1 0
    let sub_type : Option Nat := if 3 < text.length then some (text.getD 3 0) else none
    if main_type = 0x62 then MsgKind.battery
    else if main_type = 0x64 then
      if sub_type = some 0x49 then MsgKind.diagnosis_init
      else if sub_type = some 0x52 then MsgKind.diagnosis_read
      else if sub_type = some 0x45 then MsgKind.diagnosis_end
      else if sub_type = some 0x5A then MsgKind.security_session
      else if sub_type = some 0x43 then MsgKind.coding_device
      else if sub_type = some 0x56 then MsgKind.write_vin
      else if sub_type = some 0x54 then MsgKind.status
      else MsgKind.unknown
    else if main_type = 0x6A ∧ sub_type = some 0x5A then MsgKind.ebm
    else if main_type = 0x6D then
      if sub_type = some 0x41 then MsgKind.assist
      else if sub_type = some 0x5A then MsgKind.motor
      else if sub_type = some 0x4D then MsgKind.engine_maps
      else if sub_type = some 0x52 then MsgKind.reset_trip
      else MsgKind.unknown
    else if main_type = 0x73 then
      if sub_type = some 0x56 then MsgKind.vin
      else if sub_type = some 0x50 then MsgKind.protocol
      else MsgKind.unknown
    else if main_type = 0x4D ∧ sub_type = some 0x4D then MsgKind.engine_maps
    else if main_type = 0x69 ∧ sub_type = some 0x43 then MsgKind.calibrate
    else MsgKind.unknown
  else if ends_with text [0x40] then
    let main_type := text.getD 0 0
    if main_type = 0x54 then MsgKind.status
    else if main_type = 0x43 then MsgKind.coding_device
    else if main_type = 0x52 then MsgKind.vin
    else if main_type = 0x5A then MsgKind.security_challenge
    else MsgKind.unknown
  else MsgKind.unknown

/-! ### Dispatch (`handle_message`). -/

/-- `BikeDataParser.handle_message`: classify, then route to the matching
decode routine.  Only the assist 10-byte branch can raise; administrative
and unknown kinds only log. -/
def handle_message (st : ParserState) (data : List Nat) :
    Except PyError ParserState :=
  match recognize_message_type data with
  | MsgKind.battery => .ok (parse_battery_message st data).2
  | MsgKind.motor => .ok (parse_motor_message st data).2
  | MsgKind.assist =>
    match parse_assist_level_message st data with
    | .ok r => .ok r.2
    | .error e => .error e
  | MsgKind.ebm => .ok (parse_ebm_message st data).2
  | MsgKind.vin => .ok (parse_vin_message st data).2
  | MsgKind.protocol => .ok (parse_protocol_message st data).2
  | _ => .ok st

/-- The parser state after `handle_message`, including the raising path: the
one possible exception (`ValueError` in the assist branch) is raised before
any mutation, so on the error path the state is exactly the input state. -/
def handle_result_state (st : ParserState) (data : List Nat) : ParserState :=
  match handle_message st data with
  | .ok s => s
  | .error _ => st

/-! ### Connection lifecycle controller (`coordinator.py`,
`MySmartBikeCoordinator`).

The transport is modelled as an oracle: a connect attempt either succeeds or
fails at one of its four steps (`establish_connection`, `start_notify`, the
VIN request write, the protocol request write) with one of the two error
classes the coordinator distinguishes.  Teardown-step outcomes are a
separate environment record; the code swallows every teardown error, which
the model reflects by the results not depending on that record. -/

/-- The two classes of transport error the coordinator distinguishes:
"no longer reachable / out of connection slots" versus any other
`BleakError` / `asyncio.TimeoutError`. -/
inductive BleErrorKind
  | unreachable
  | transport
  deriving Repr, DecidableEq

/-- The step of `_connect` at which a transport error is raised. -/
inductive ConnectStep
  | establish
  | start_notify
  | write_vin_request
  | write_protocol_request
  deriving Repr, DecidableEq

/-- Outcome of one connect attempt, supplied by the transport. -/
inductive ConnectOutcome
  | success
  | failAt (step : ConnectStep) (kind : BleErrorKind)
  deriving Repr, DecidableEq

/-- Outcomes of the individual best-effort teardown steps (whether the old
client still reports itself connected, and whether the close-message write,
`stop_notify`, and `disconnect` calls fail).  Every failure here is caught
and logged by the code. -/
structure TeardownEnv where
  client_connected : Bool
  close_write_fails : Bool
  stop_notify_fails : Bool
  disconnect_fails : Bool
  deriving Repr, DecidableEq

/-- Coordinator state: whether a client handle is held (`self._client` is
not `None`), `self._is_connected`, the sticky `self._manual_disconnect`
flag, and the owned parser. -/
structure CoordinatorState where
  client : Bool
  is_connected : Bool
  manual_disconnect : Bool
  parser : ParserState
  deriving Repr, DecidableEq

/-- The coordinator just after `__init__`: no client, not connected, flag
clear, fresh parser. -/
def initCoordinator : CoordinatorState :=
  { client := false
    is_connected := false
    manual_disconnect := false
    parser := initState }

/-- `MySmartBikeCoordinator._connect`: drop any stale client first (its
best-effort disconnect errors are swallowed), then attempt
establish / start_notify / VIN request / protocol request.  On success the
new client is held and `_is_connected` becomes true; on a failure at
`establish_connection` no client is held; on a later failure the
freshly-established client remains held; every failure sets `_is_connected`
to false and raises `UpdateFailed` carrying the error class. -/
def coordinator_connect (st : CoordinatorState) (env : TeardownEnv)
    (o : ConnectOutcome) : CoordinatorState × Option BleErrorKind :=
  let st1 := if st.client then { st with client := false } else st
  match o with
  | ConnectOutcome.success =>
    ({ st1 with client := true, is_connected := true }, none)
  | ConnectOutcome.failAt step kind =>
    if step = ConnectStep.establish then
      ({ st1 with client := false, is_connected := false }, some kind)
    else
      ({ st1 with client := true, is_connected := false }, some kind)

/-- `MySmartBikeCoordinator.async_disconnect` (user initiated): set the
sticky flag first, then run the best-effort teardown (close message,
`stop_notify`, `disconnect`, each failure swallowed) and clear the client
handle; `_is_connected` ends false on every path. -/
def async_disconnect (st : CoordinatorState) (env : TeardownEnv) :
    CoordinatorState :=
  let st1 := { st with manual_disconnect := true }
  if st1.client then { st1 with client := false, is_connected := false }
  else { st1 with is_connected := false }

/-- `MySmartBikeCoordinator.async_reconnect` (user initiated): tear down any
existing client (errors swallowed), clear the sticky flag, then run
`_connect`; a connect failure is re-raised to the caller. -/
def async_reconnect (st : CoordinatorState) (env : TeardownEnv)
    (o : ConnectOutcome) : CoordinatorState × Option BleErrorKind :=
  let st1 :=
    if st.client then { st with client := false, is_connected := false }
    else st
  let st2 := { st1 with manual_disconnect := false }
  coordinator_connect st2 env o

/-- What a poll tick hands back to the scheduler: the parser's Bike State
aggregate (`self._parser.state`) with the externally-read RSSI attached
(`None` when the RSSI lookup failed — that exception is caught). -/
structure TickReturn where
  state : BikeState
  rssi : Option Int
  deriving Repr, DecidableEq

/-- `MySmartBikeCoordinator._async_update_data` (the scheduled poll tick):
attempt `_connect` only when not connected and the sticky flag is clear,
swallowing any connect failure; always return the parser's current Bike
State with the RSSI attached.  The middle component records whether
`_connect` was invoked. -/
def async_update_data (st : CoordinatorState) (env : TeardownEnv)
    (o : ConnectOutcome) (rssi : Option Int) :
    CoordinatorState × Bool × TickReturn :=
  if st.is_connected = false ∧ st.manual_disconnect = false then
    let r := coordinator_connect st env o
    (r.1, true, { state := r.1.parser.state, rssi := rssi })
  else
    (st, false, { state := st.parser.state, rssi := rssi })

/-- `MySmartBikeCoordinator.async_shutdown`: the same best-effort teardown
as `async_disconnect` (errors swallowed, client handle cleared,
`_is_connected` false) but without the cooldown wait and without touching
the sticky flag. -/
def async_shutdown (st : CoordinatorState) (env : TeardownEnv) :
    CoordinatorState :=
  if st.client then { st with client := false, is_connected := false }
  else { st with is_connected := false }

/-! ### Concrete frames (from the repository's test suite and logs). -/

/-- The EBM frame `24 6a 24 5a 23 00 56 af 68 00 0b ef 6f 00 00 23 40`. -/
def ebm_frame : List Nat :=
  [0x24, 0x6A, 0x24, 0x5A, 0x23, 0x00, 0x56, 0xAF, 0x68, 0x00, 0x0B, 0xEF,
   0x6F, 0x00, 0x00, 0x23, 0x40]

/-- The 19-byte battery frame `24 62 24 5a 23 01 93 54 17 00 00 08 77 07 1a
27 34 23 40` (combined field 0x2734 = 10036: primary battery, 36 cycles). -/
def battery_frame : List Nat :=
  [0x24, 0x62, 0x24, 0x5A, 0x23, 0x01, 0x93, 0x54, 0x17, 0x00, 0x00, 0x08,
   0x77, 0x07, 0x1A, 0x27, 0x34, 0x23, 0x40]

/-- The same battery frame truncated to the 17-byte minimum (no combined
field). -/
def short_battery_frame : List Nat :=
  [0x24, 0x62, 0x24, 0x5A, 0x23, 0x01, 0x93, 0x54, 0x17, 0x00, 0x00, 0x08,
   0x77, 0x07, 0x1A, 0x23, 0x40]

/-- A 19-byte battery frame whose combined field at offset 15 is zero. -/
def zero_combined_battery_frame : List Nat :=
  [0x24, 0x62, 0x24, 0x5A, 0x23, 0x01, 0x93, 0x54, 0x17, 0x00, 0x00, 0x08,
   0x77, 0x07, 0x1A, 0x00, 0x00, 0x23, 0x40]

/-- A 19-byte battery frame whose combined field is 0x7530 = 30000, giving
battery number 3. -/
def bn3_battery_frame : List Nat :=
  [0x24, 0x62, 0x24, 0x5A, 0x23, 0x01, 0x93, 0x54, 0x17, 0x00, 0x00, 0x08,
   0x77, 0x07, 0x1A, 0x75, 0x30, 0x23, 0x40]

/-- A 10-byte frame classified as assist (`$m$A#ABC#@`) whose payload bytes
at offsets 5-7 are the non-digit letters `ABC`. -/
def bad_assist_frame : List Nat :=
  [0x24, 0x6D, 0x24, 0x41, 0x23, 0x41, 0x42, 0x43, 0x23, 0x40]

/-- The motor frame `24 6d 24 5a 23 01 17 00 00 00 00 00 00 00 4f 64 23 40`. -/
def motor_frame : List Nat :=
  [0x24, 0x6D, 0x24, 0x5A, 0x23, 0x01, 0x17, 0x00, 0x00, 0x00, 0x00, 0x00,
   0x00, 0x00, 0x4F, 0x64, 0x23, 0x40]

/-! ### Preservation lemmas: each decode routine touches only the state
components it owns. -/

lemma parse_battery_message_preserves (st : ParserState) (m : List Nat) :
    (parse_battery_message st m).2.state.motor = st.state.motor
  ∧ (parse_battery_message st m).2.state.assist = st.state.assist
  ∧ (parse_battery_message st m).2.state.ebm = st.state.ebm
  ∧ (parse_battery_message st m).2.vin = st.vin
  ∧ (parse_battery_message st m).2.protocol_version = st.protocol_version := by
  simp only [parse_battery_message]
  split_ifs <;> simp

lemma parse_motor_message_preserves (st : ParserState) (m : List Nat) :
    (parse_motor_message st m).2.state.battery_primary = st.state.battery_primary
  ∧ (parse_motor_message st m).2.state.battery_secondary = st.state.battery_secondary
  ∧ (parse_motor_message st m).2.state.assist = st.state.assist
  ∧ (parse_motor_message st m).2.state.ebm = st.state.ebm := by
  unfold parse_motor_message
  repeat' split
  all_goals simp

lemma parse_ebm_message_preserves (st : ParserState) (m : List Nat) :
    (parse_ebm_message st m).2.state.battery_primary = st.state.battery_primary
  ∧ (parse_ebm_message st m).2.state.battery_secondary = st.state.battery_secondary
  ∧ (parse_ebm_message st m).2.state.motor = st.state.motor
  ∧ (parse_ebm_message st m).2.state.assist = st.state.assist := by
  unfold parse_ebm_message
  repeat' split
  all_goals simp

lemma parse_vin_message_preserves (st : ParserState) (m : List Nat) :
    (parse_vin_message st m).2.state = st.state := by
  simp only [parse_vin_message, parse_vin_r0]
  split_ifs <;> simp

lemma parse_protocol_message_preserves (st : ParserState) (m : List Nat) :
    (parse_protocol_message st m).2.state = st.state := by
  simp only [parse_protocol_message]
  split_ifs <;> simp

lemma parse_assist_ok_preserves (st : ParserState) (m : List Nat)
    (r : Option AssistData × ParserState)
    (h : parse_assist_level_message st m = Except.ok r) :
    r.2.state.battery_primary = st.state.battery_primary
  ∧ r.2.state.battery_secondary = st.state.battery_secondary
  ∧ r.2.state.motor = st.state.motor
  ∧ r.2.state.ebm = st.state.ebm := by
  unfold parse_assist_level_message at h
  split at h
  · split at h
    · cases h
      exact ⟨rfl, rfl, rfl, rfl⟩
    · exact absurd h (by simp)
  · split at h
    · cases h
      exact ⟨rfl, rfl, rfl, rfl⟩
    · cases h
      exact ⟨rfl, rfl, rfl, rfl⟩

/-! ### Battery combined-field helpers. -/

lemma battery_number_of_long (m : List Nat) (h19 : 19 ≤ m.length)
    (hnz : read16 m 15 ≠ 0) :
    battery_number m = read16 m 15 / 10000 := by
  unfold battery_number battery_combined_raw
  rw [if_pos h19]
  simp [hnz]

lemma battery_cycles_of_long (m : List Nat) (h19 : 19 ≤ m.length)
    (hnz : read16 m 15 ≠ 0) :
    battery_cycles m = some (read16 m 15 % 10000) := by
  unfold battery_cycles battery_combined_raw
  rw [if_pos h19]
  simp [hnz]

lemma battery_number_of_short (m : List Nat) (h : ¬ 19 ≤ m.length) :
    battery_number m = 1 := by
  unfold battery_number battery_combined_raw
  rw [if_neg h]

lemma battery_cycles_of_short (m : List Nat) (h : ¬ 19 ≤ m.length) :
    battery_cycles m = none := by
  unfold battery_cycles battery_combined_raw
  rw [if_neg h]

lemma battery_number_of_zero (m : List Nat) (h19 : 19 ≤ m.length)
    (hz : read16 m 15 = 0) :
    battery_number m = 1 := by
  unfold battery_number battery_combined_raw
  rw [if_pos h19]
  simp [hz]

lemma battery_cycles_of_zero (m : List Nat) (h19 : 19 ≤ m.length)
    (hz : read16 m 15 = 0) :
    battery_cycles m = none := by
  unfold battery_cycles battery_combined_raw
  rw [if_pos h19]
  simp [hz]

lemma parse_battery_message_fst (st : ParserState) (m : List Nat)
    (h : 17 ≤ m.length) :
    (parse_battery_message st m).1 = some (battery_data_of m) := by
  have hlt : ¬ m.length < BATTERY_MESSAGE_LENGTH := by
    simp only [BATTERY_MESSAGE_LENGTH]
    omega
  simp only [parse_battery_message]
  rw [if_neg hlt]
  split_ifs <;> rfl

/-- C9: the concrete frame `24 6a 24 5a 23 00 56 af 68 00 0b ef 6f 00 00 23
40` is classified as kind ebm, and decoding it yields odometry
0x0056af68 / 10000 = 568.1 km, autonomy 0x000bef6f / 10000 km, light off
(its byte at offset 13 is not 1), and status equal to its byte at offset 14,
written into the ebm slot. -/
theorem ebm_concrete_frame_decode :
    recognize_message_type ebm_frame = MsgKind.ebm
  ∧ (parse_ebm_message initState ebm_frame).1 =
      some { odometry := (0x0056AF68 : ℚ) / 10000
             autonomy := (0x000BEF6F : ℚ) / 10000
             is_light_on := false
             status := ebm_frame.getD 14 0 }
  ∧ ((0x0056AF68 : ℚ) / 10000 = 5681 / 10)
  ∧ ebm_frame.getD 13 0 ≠ 1
  ∧ (parse_ebm_message initState ebm_frame).2.state.ebm =
      (parse_ebm_message initState ebm_frame).1 := by
  refine ⟨rfl, ?_, by norm_num, by decide, rfl⟩
  rfl

/-- C1: the dispatch contract is violated by the code: the 10-byte frame
`$m$A#ABC#@` is classified as assist, and `handle_message` raises
`ValueError` on it (from `int(chr(0x41))`), instead of completing silently
as the specification requires. -/
theorem handle_message_assist_nondigit_raises (st : ParserState) :
    recognize_message_type bad_assist_frame = MsgKind.assist
  ∧ bad_assist_frame.length = 10
  ∧ handle_message st bad_assist_frame = Except.error PyError.valueError :=
  ⟨rfl, rfl, rfl⟩

/-- C2 (counterexample): on the 19-byte battery frame whose combined field
at offset 15 is 0, the decoder produces no cycles value and battery number
1, not cycles = 0 mod 10000 and battery number = 0 div 10000 as the claim
states for every frame of length ≥ 19. -/
theorem battery_combined_zero_counterexample :
    zero_combined_battery_frame.length = 19
  ∧ recognize_message_type zero_combined_battery_frame = MsgKind.battery
  ∧ read16 zero_combined_battery_frame 15 = 0
  ∧ ((parse_battery_message initState zero_combined_battery_frame).1).map
      BatteryData.cycles = some none
  ∧ battery_number zero_combined_battery_frame = 1
  ∧ ¬(((parse_battery_message initState zero_combined_battery_frame).1).map
        BatteryData.cycles
      = some (some (read16 zero_combined_battery_frame 15 % 10000))) := by
  refine ⟨rfl, rfl, rfl, ?_, rfl, ?_⟩
  · rfl
  · intro h
    simp only [Option.map] at h
    exact absurd h (by decide)

/-- C2 (amended): for every battery frame of length ≥ 19 whose combined
16-bit big-endian field v at offset 15 is nonzero, the decoder produces
battery_number = v div 10000 and cycles = v mod 10000; for every frame of
length 17 or 18, and likewise for every frame of length ≥ 19 with v = 0,
battery_number defaults to 1 and no cycles value is produced. -/
theorem parse_battery_combined_field (st : ParserState) (msg : List Nat)
    (hb : recognize_message_type msg = MsgKind.battery) :
    (19 ≤ msg.length → read16 msg 15 ≠ 0 →
      battery_number msg = read16 msg 15 / 10000
      ∧ ((parse_battery_message st msg).1).map BatteryData.cycles
          = some (some (read16 msg 15 % 10000)))
  ∧ (msg.length = 17 ∨ msg.length = 18 →
      battery_number msg = 1
      ∧ ((parse_battery_message st msg).1).map BatteryData.cycles
          = some none)
  ∧ (19 ≤ msg.length → read16 msg 15 = 0 →
      battery_number msg = 1
      ∧ ((parse_battery_message st msg).1).map BatteryData.cycles
          = some none) := by
  refine ⟨?_, ?_, ?_⟩
  · intro h19 hnz
    refine ⟨battery_number_of_long msg h19 hnz, ?_⟩
    rw [parse_battery_message_fst st msg (by omega)]
    simp [battery_data_of, battery_cycles_of_long msg h19 hnz]
  · intro hlen
    have h19 : ¬ 19 ≤ msg.length := by omega
    refine ⟨battery_number_of_short msg h19, ?_⟩
    rw [parse_battery_message_fst st msg (by omega)]
    simp [battery_data_of, battery_cycles_of_short msg h19]
  · intro h19 hz
    refine ⟨battery_number_of_zero msg h19 hz, ?_⟩
    rw [parse_battery_message_fst st msg (by omega)]
    simp [battery_data_of, battery_cycles_of_zero msg h19 hz]

/-- Witness for the amended C2, at the repository's own 19-byte battery
frame (combined field 10036), at its 17-byte truncation, and at the 19-byte
frame with a zero combined field. -/
theorem parse_battery_combined_field_witness :
    battery_number battery_frame = 1
  ∧ ((parse_battery_message initState battery_frame).1).map BatteryData.cycles
      = some (some 36)
  ∧ battery_number short_battery_frame = 1
  ∧ ((parse_battery_message initState short_battery_frame).1).map
      BatteryData.cycles = some none
  ∧ battery_number zero_combined_battery_frame = 1
  ∧ ((parse_battery_message initState zero_combined_battery_frame).1).map
      BatteryData.cycles = some none := by
  have h1 := (parse_battery_combined_field initState battery_frame
    (by decide)).1 (by decide) (by decide)
  have h2 := (parse_battery_combined_field initState short_battery_frame
    (by decide)).2.1 (Or.inl (by decide))
  have h3 := (parse_battery_combined_field initState
    zero_combined_battery_frame (by decide)).2.2 (by decide) (by decide)
  exact ⟨h1.1.trans (by decide), h1.2.trans (by decide), h2.1, h2.2,
    h3.1, h3.2⟩

/-- C10: a battery frame of length ≥ 19 with a nonzero combined field whose
battery number is neither 1 nor 2 still returns the decoded reading but
leaves the whole parser state — both battery slots and the packet counter —
unchanged. -/
theorem battery_unknown_number_no_write (st : ParserState) (msg : List Nat)
    (hb : recognize_message_type msg = MsgKind.battery)
    (h19 : 19 ≤ msg.length) (hnz : read16 msg 15 ≠ 0)
    (h1 : battery_number msg ≠ 1) (h2 : battery_number msg ≠ 2) :
    (parse_battery_message st msg).1 = some (battery_data_of msg)
  ∧ (parse_battery_message st msg).2 = st := by
  have hlt : ¬ msg.length < BATTERY_MESSAGE_LENGTH := by
    simp only [BATTERY_MESSAGE_LENGTH]
    omega
  refine ⟨parse_battery_message_fst st msg (by omega), ?_⟩
  simp only [parse_battery_message]
  rw [if_neg hlt, if_neg h2, if_neg h1]

/-- Witness for C10, at the 19-byte battery frame with combined field
30000 (battery number 3). -/
theorem battery_unknown_number_no_write_witness :
    (parse_battery_message initState bn3_battery_frame).1
      = some (battery_data_of bn3_battery_frame)
  ∧ (parse_battery_message initState bn3_battery_frame).2 = initState :=
  battery_unknown_number_no_write initState bn3_battery_frame
    (by decide) (by decide) (by decide) (by decide) (by decide)

/-! ### The four-consecutive-primary-packets quirk (C3). -/

/-- The parser state after feeding one frame to `parse_battery_message`. -/
def battery_step (st : ParserState) (m : List Nat) : ParserState :=
  (parse_battery_message st m).2

/-- A battery frame that decodes with battery number 1 (primary). -/
abbrev isPrimaryBatteryFrame (m : List Nat) : Prop :=
  recognize_message_type m = MsgKind.battery ∧ 17 ≤ m.length
    ∧ battery_number m = 1

lemma battery_step_primary (st : ParserState) (m : List Nat)
    (h : isPrimaryBatteryFrame m) :
    (battery_step st m).battery_packet_counter = st.battery_packet_counter + 1
  ∧ (battery_step st m).state.battery_secondary =
      (if 4 ≤ st.battery_packet_counter + 1 then some zero_battery_data
       else st.state.battery_secondary) := by
  obtain ⟨-, hlen, hbn⟩ := h
  have hlt : ¬ m.length < BATTERY_MESSAGE_LENGTH := by
    simp only [BATTERY_MESSAGE_LENGTH]
    omega
  simp only [battery_step, parse_battery_message]
  rw [if_neg hlt, if_neg (by rw [hbn]; decide), if_pos hbn]
  by_cases h4 : 4 ≤ st.battery_packet_counter + 1
  · rw [if_pos h4, if_pos h4]
    exact ⟨rfl, rfl⟩
  · rw [if_neg h4, if_neg h4]
    exact ⟨rfl, rfl⟩

lemma battery_step_secondary (st : ParserState) (m : List Nat)
    (hlen : 17 ≤ m.length) (hbn : battery_number m = 2) :
    (battery_step st m).battery_packet_counter = 0
  ∧ (battery_step st m).state.battery_secondary = some (battery_data_of m)
  ∧ (parse_battery_message st m).1 = some (battery_data_of m) := by
  have hlt : ¬ m.length < BATTERY_MESSAGE_LENGTH := by
    simp only [BATTERY_MESSAGE_LENGTH]
    omega
  refine ⟨?_, ?_, parse_battery_message_fst st m hlen⟩ <;>
  · simp only [battery_step, parse_battery_message]
    rw [if_neg hlt, if_pos hbn]

/-- C3: from any parser state, four consecutive primary (battery number 1)
battery frames force the battery_secondary slot to the explicit all-zero
reading; a fifth consecutive primary frame keeps it zeroed; and a battery
frame decoded with battery number 2 resets the packet counter to zero and
writes its reading to battery_secondary. -/
theorem battery_secondary_zeroing (st : ParserState)
    (m1 m2 m3 m4 m5 ms : List Nat)
    (h1 : isPrimaryBatteryFrame m1) (h2 : isPrimaryBatteryFrame m2)
    (h3 : isPrimaryBatteryFrame m3) (h4 : isPrimaryBatteryFrame m4)
    (h5 : isPrimaryBatteryFrame m5)
    (hsk : recognize_message_type ms = MsgKind.battery)
    (hsl : 17 ≤ ms.length) (hsn : battery_number ms = 2) :
    (battery_step (battery_step (battery_step (battery_step st m1) m2) m3)
        m4).state.battery_secondary = some zero_battery_data
  ∧ (battery_step (battery_step (battery_step (battery_step (battery_step
        st m1) m2) m3) m4) m5).state.battery_secondary
      = some zero_battery_data
  ∧ (battery_step st ms).battery_packet_counter = 0
  ∧ (battery_step st ms).state.battery_secondary
      = (parse_battery_message st ms).1 := by
  have s1 := battery_step_primary st m1 h1
  have s2 := battery_step_primary (battery_step st m1) m2 h2
  have s3 := battery_step_primary (battery_step (battery_step st m1) m2) m3 h3
  have s4 := battery_step_primary
    (battery_step (battery_step (battery_step st m1) m2) m3) m4 h4
  have s5 := battery_step_primary
    (battery_step (battery_step (battery_step (battery_step st m1) m2) m3)
      m4) m5 h5
  have c3 : (battery_step (battery_step (battery_step st m1) m2)
      m3).battery_packet_counter = st.battery_packet_counter + 3 := by
    rw [s3.1, s2.1, s1.1]
  have hz4 : (battery_step (battery_step (battery_step (battery_step st m1)
      m2) m3) m4).state.battery_secondary = some zero_battery_data := by
    rw [s4.2, c3, if_pos (by omega)]
  have hc4 : (battery_step (battery_step (battery_step (battery_step st m1)
      m2) m3) m4).battery_packet_counter = st.battery_packet_counter + 4 := by
    rw [s4.1, c3]
  have hz5 : (battery_step (battery_step (battery_step (battery_step
      (battery_step st m1) m2) m3) m4) m5).state.battery_secondary
      = some zero_battery_data := by
    rw [s5.2, hc4, if_pos (by omega)]
  have ss := battery_step_secondary st ms hsl hsn
  exact ⟨hz4, hz5, ss.1, ss.2.1.trans ss.2.2.symm⟩

/-- A 19-byte battery frame whose combined field is 0x4E56 = 20054: battery
number 2 (secondary), 54 cycles. -/
def secondary_battery_frame : List Nat :=
  [0x24, 0x62, 0x24, 0x5A, 0x23, 0x01, 0x93, 0x54, 0x17, 0x00, 0x00, 0x08,
   0x77, 0x07, 0x1A, 0x4E, 0x56, 0x23, 0x40]

/-- Witness for C3, feeding the repository's primary battery frame four and
five times from the initial state, and one secondary (battery number 2)
frame. -/
theorem battery_secondary_zeroing_witness :
    (battery_step (battery_step (battery_step (battery_step initState
        battery_frame) battery_frame) battery_frame)
        battery_frame).state.battery_secondary = some zero_battery_data
  ∧ (battery_step (battery_step (battery_step (battery_step (battery_step
        initState battery_frame) battery_frame) battery_frame)
        battery_frame) battery_frame).state.battery_secondary
      = some zero_battery_data
  ∧ (battery_step initState secondary_battery_frame).battery_packet_counter
      = 0
  ∧ (battery_step initState secondary_battery_frame).state.battery_secondary
      = (parse_battery_message initState secondary_battery_frame).1 :=
  battery_secondary_zeroing initState battery_frame battery_frame
    battery_frame battery_frame battery_frame secondary_battery_frame
    (by decide) (by decide) (by decide) (by decide) (by decide)
    (by decide) (by decide) (by decide)

/-! ### Sticky VIN / protocol idempotence (C6). -/

/-- The decoded text of a frame that `parse_vin_message` accepts: one of the
two textual shapes of the code, with a 17-character serial. -/
abbrev vin_text_accepted (text : List Nat) : Prop :=
  (starts_with text text_sV = true ∧ ends_with text text_hash_at = true
    ∧ ((text.take (text.length - 2)).drop 5).length = 17)
  ∨ (text.length = 20 ∧ ends_with text [0x40] = true
    ∧ starts_with text text_R0 = true
    ∧ ((text.take (text.length - 1)).drop 2).length = 17)

/-- The decoded text of a frame that `parse_protocol_message` accepts: the
`$s$P#<version>#@` shape with a version that is neither empty nor the
literal `"ER"`. -/
abbrev protocol_text_accepted (text : List Nat) : Prop :=
  starts_with text text_sP = true ∧ ends_with text text_hash_at = true
  ∧ (text.take (text.length - 2)).drop 5 ≠ []
  ∧ (text.take (text.length - 2)).drop 5 ≠ text_ER

lemma parse_vin_r0_rejected (st : ParserState) (text : List Nat)
    (hm : ¬ (text.length = 20 ∧ ends_with text [0x40] = true
      ∧ starts_with text text_R0 = true
      ∧ ((text.take (text.length - 1)).drop 2).length = 17)) :
    parse_vin_r0 st text = (none, st) := by
  simp only [parse_vin_r0]
  split_ifs with hcond hl
  · exact absurd ⟨hcond.1, hcond.2.1, hcond.2.2, hl⟩ hm
  · rfl
  · rfl

/-- C6: once the sticky VIN and protocol version are set, feeding any frame
whose decoded text does not match an accepted shape — for the protocol, in
particular the literal `"ER"` version and the empty version — returns no
value and leaves the parser state, including both sticky values,
unchanged. -/
theorem vin_protocol_sticky_on_malformed (st : ParserState)
    (v p mv mp : List Nat)
    (hv : st.vin = some v) (hp : st.protocol_version = some p)
    (hmv : ¬ vin_text_accepted (utf8_decode_ignore mv))
    (hmp : ¬ protocol_text_accepted (utf8_decode_ignore mp)) :
    parse_vin_message st mv = (none, st)
  ∧ (parse_vin_message st mv).2.vin = some v
  ∧ parse_protocol_message st mp = (none, st)
  ∧ (parse_protocol_message st mp).2.protocol_version = some p := by
  have hvin : parse_vin_message st mv = (none, st) := by
    simp only [parse_vin_message]
    split_ifs with hcond hl
    · exact absurd (Or.inl ⟨hcond.1, hcond.2, hl⟩) hmv
    · exact parse_vin_r0_rejected st _ (fun hr => hmv (Or.inr hr))
    · exact parse_vin_r0_rejected st _ (fun hr => hmv (Or.inr hr))
  have hproto : parse_protocol_message st mp = (none, st) := by
    simp only [parse_protocol_message]
    split_ifs with hcond hver
    · exact absurd ⟨hcond.1, hcond.2, hver.1, hver.2⟩ hmp
    · rfl
    · rfl
  refine ⟨hvin, ?_, hproto, ?_⟩
  · rw [hvin]
    exact hv
  · rw [hproto]
    exact hp

/-- A parser state in which both sticky values are already set. -/
def sticky_state : ParserState :=
  { initState with
    vin := [0x53, 0x42, 0x30, 0x30, 0x30, 0x30, 0x30, 0x30, 0x30, 0x30,
            0x32, 0x32, 0x30, 0x37, 0x32, 0x30, 0x33]
    protocol_version := [0x31, 0x2E, 0x30, 0x32] }

/-- A malformed VIN frame: `$s$V#SHORT#@` (serial not 17 characters). -/
def bad_vin_frame : List Nat :=
  [0x24, 0x73, 0x24, 0x56, 0x23, 0x53, 0x48, 0x4F, 0x52, 0x54, 0x23, 0x40]

/-- The device-reported protocol error frame `$s$P#ER#@`. -/
def protocol_er_frame : List Nat :=
  [0x24, 0x73, 0x24, 0x50, 0x23, 0x45, 0x52, 0x23, 0x40]

/-- Witness for C6, at a state with both stickies set, a VIN frame with a
short serial, and the `$s$P#ER#@` error frame. -/
theorem vin_protocol_sticky_on_malformed_witness :
    parse_vin_message sticky_state bad_vin_frame = (none, sticky_state)
  ∧ (parse_vin_message sticky_state bad_vin_frame).2.vin = sticky_state.vin
  ∧ parse_protocol_message sticky_state protocol_er_frame
      = (none, sticky_state)
  ∧ (parse_protocol_message sticky_state protocol_er_frame).2.protocol_version
      = sticky_state.protocol_version :=
  vin_protocol_sticky_on_malformed sticky_state _ _ bad_vin_frame
    protocol_er_frame rfl rfl (by decide) (by decide)

/-! ### Connection lifecycle properties (C4, C5, C7). -/

/-- C4: whenever the sticky manual-disconnect flag is set, a poll tick does
not invoke the connect routine, opens no new transport session (the
coordinator state, including the client handle, is returned unchanged), and
still hands back the current Bike State with the RSSI attached. -/
theorem poll_tick_respects_manual_disconnect (st : CoordinatorState)
    (env : TeardownEnv) (o : ConnectOutcome) (rssi : Option Int)
    (h : st.manual_disconnect = true) :
    async_update_data st env o rssi
      = (st, false, { state := st.parser.state, rssi := rssi }) := by
  unfold async_update_data
  rw [if_neg (by simp [h])]

/-- Witness for C4, at a manually-disconnected coordinator. -/
theorem poll_tick_respects_manual_disconnect_witness :
    async_update_data { initCoordinator with manual_disconnect := true }
        ⟨false, false, false, false⟩ ConnectOutcome.success none
      = ({ initCoordinator with manual_disconnect := true }, false,
          { state := initState.state, rssi := none }) :=
  poll_tick_respects_manual_disconnect
    { initCoordinator with manual_disconnect := true }
    ⟨false, false, false, false⟩ ConnectOutcome.success none rfl

/-- C5: the sticky manual-disconnect flag is set to true only by the
user-facing disconnect and cleared only by the user-facing reconnect;
connect attempts (whatever their outcome), poll ticks, and shutdown leave
it exactly as it was on entry, whatever the teardown-step outcomes. -/
theorem manual_disconnect_flag_discipline (st : CoordinatorState)
    (env : TeardownEnv) (o : ConnectOutcome) (rssi : Option Int) :
    (coordinator_connect st env o).1.manual_disconnect = st.manual_disconnect
  ∧ (async_update_data st env o rssi).1.manual_disconnect
      = st.manual_disconnect
  ∧ (async_shutdown st env).manual_disconnect = st.manual_disconnect
  ∧ (async_disconnect st env).manual_disconnect = true
  ∧ (async_reconnect st env o).1.manual_disconnect = false := by
  have hc : ∀ s : CoordinatorState,
      (coordinator_connect s env o).1.manual_disconnect
        = s.manual_disconnect := by
    intro s
    cases o with
    | success =>
      simp only [coordinator_connect]
      split_ifs <;> rfl
    | failAt step kind =>
      simp only [coordinator_connect]
      split_ifs <;> rfl
  refine ⟨hc st, ?_, ?_, ?_, ?_⟩
  · unfold async_update_data
    split_ifs with hcond
    · exact hc st
    · rfl
  · unfold async_shutdown
    split_ifs <;> rfl
  · simp only [async_disconnect]
    split_ifs <;> rfl
  · unfold async_reconnect
    split_ifs <;> exact hc _

/-- C7: a transport error at any step of a connect attempt leaves the
controller not connected and is raised as a connectivity failure; inside a
poll tick that failure is swallowed (the tick returns the latest Bike State
and the parser is untouched); inside the user-facing reconnect it is
re-raised exactly once with the sticky flag remaining cleared and the
controller not connected. -/
theorem connect_failure_propagation (st : CoordinatorState)
    (env : TeardownEnv) (step : ConnectStep) (kind : BleErrorKind)
    (rssi : Option Int) :
    (coordinator_connect st env (ConnectOutcome.failAt step kind)).1.is_connected
        = false
  ∧ (coordinator_connect st env (ConnectOutcome.failAt step kind)).2
        = some kind
  ∧ (async_update_data st env (ConnectOutcome.failAt step kind) rssi).2.2
        = { state := st.parser.state, rssi := rssi }
  ∧ (async_update_data st env (ConnectOutcome.failAt step kind) rssi).1.parser
        = st.parser
  ∧ (async_reconnect st env (ConnectOutcome.failAt step kind)).2 = some kind
  ∧ (async_reconnect st env (ConnectOutcome.failAt step kind)).1.is_connected
        = false
  ∧ (async_reconnect st env (ConnectOutcome.failAt step kind)).1.manual_disconnect
        = false := by
  have hp : ∀ s : CoordinatorState,
      (coordinator_connect s env (ConnectOutcome.failAt step kind)).1.parser
        = s.parser := by
    intro s
    simp only [coordinator_connect]
    split_ifs <;> rfl
  have hic : ∀ s : CoordinatorState,
      (coordinator_connect s env
          (ConnectOutcome.failAt step kind)).1.is_connected = false := by
    intro s
    simp only [coordinator_connect]
    split_ifs <;> rfl
  have herr : ∀ s : CoordinatorState,
      (coordinator_connect s env (ConnectOutcome.failAt step kind)).2
        = some kind := by
    intro s
    simp only [coordinator_connect]
    split_ifs <;> rfl
  have hmd : ∀ s : CoordinatorState,
      (coordinator_connect s env
          (ConnectOutcome.failAt step kind)).1.manual_disconnect
        = s.manual_disconnect := by
    intro s
    simp only [coordinator_connect]
    split_ifs <;> rfl
  refine ⟨hic st, herr st, ?_, ?_, ?_, ?_, ?_⟩
  · simp only [async_update_data]
    split_ifs with hcond
    · simp [hp st]
    · rfl
  · simp only [async_update_data]
    split_ifs with hcond
    · simp [hp st]
    · rfl
  · unfold async_reconnect
    split_ifs <;> exact herr _
  · unfold async_reconnect
    split_ifs <;> exact hic _
  · unfold async_reconnect
    split_ifs <;> rw [hmd]

/-- C8: classifying then decoding a frame through `handle_message` mutates
only the Bike-State slots owned by the frame's kind: any non-battery frame
leaves both battery slots unchanged, any non-motor frame leaves the motor
slot unchanged, any non-assist frame leaves the assist slot unchanged, and
any non-ebm frame leaves the ebm slot unchanged — so administrative,
identification and unknown kinds alter no slot at all. -/
theorem handle_message_slot_ownership (st : ParserState) (data : List Nat) :
    (recognize_message_type data ≠ MsgKind.battery →
      (handle_result_state st data).state.battery_primary
          = st.state.battery_primary
      ∧ (handle_result_state st data).state.battery_secondary
          = st.state.battery_secondary)
  ∧ (recognize_message_type data ≠ MsgKind.motor →
      (handle_result_state st data).state.motor = st.state.motor)
  ∧ (recognize_message_type data ≠ MsgKind.assist →
      (handle_result_state st data).state.assist = st.state.assist)
  ∧ (recognize_message_type data ≠ MsgKind.ebm →
      (handle_result_state st data).state.ebm = st.state.ebm) := by
  unfold handle_result_state handle_message
  cases hk : recognize_message_type data
  case battery =>
    exact ⟨fun hc => absurd rfl hc,
      fun _ => (parse_battery_message_preserves st data).1,
      fun _ => (parse_battery_message_preserves st data).2.1,
      fun _ => (parse_battery_message_preserves st data).2.2.1⟩
  case motor =>
    exact ⟨fun _ => ⟨(parse_motor_message_preserves st data).1,
        (parse_motor_message_preserves st data).2.1⟩,
      fun hc => absurd rfl hc,
      fun _ => (parse_motor_message_preserves st data).2.2.1,
      fun _ => (parse_motor_message_preserves st data).2.2.2⟩
  case assist =>
    cases hpa : parse_assist_level_message st data with
    | ok r =>
      have hpre := parse_assist_ok_preserves st data r hpa
      exact ⟨fun _ => ⟨hpre.1, hpre.2.1⟩, fun _ => hpre.2.2.1,
        fun hc => absurd rfl hc, fun _ => hpre.2.2.2⟩
    | error e =>
      exact ⟨fun _ => ⟨rfl, rfl⟩, fun _ => rfl, fun hc => absurd rfl hc,
        fun _ => rfl⟩
  case ebm =>
    exact ⟨fun _ => ⟨(parse_ebm_message_preserves st data).1,
        (parse_ebm_message_preserves st data).2.1⟩,
      fun _ => (parse_ebm_message_preserves st data).2.2.1,
      fun _ => (parse_ebm_message_preserves st data).2.2.2,
      fun hc => absurd rfl hc⟩
  case vin =>
    have h := parse_vin_message_preserves st data
    exact ⟨fun _ => ⟨by rw [h], by rw [h]⟩, fun _ => by rw [h],
      fun _ => by rw [h], fun _ => by rw [h]⟩
  case protocol =>
    have h := parse_protocol_message_preserves st data
    exact ⟨fun _ => ⟨by rw [h], by rw [h]⟩, fun _ => by rw [h],
      fun _ => by rw [h], fun _ => by rw [h]⟩
  all_goals exact ⟨fun _ => ⟨rfl, rfl⟩, fun _ => rfl, fun _ => rfl,
    fun _ => rfl⟩

/-- Witness for C8, at the empty frame (kind `unknown`): no slot changes. -/
theorem handle_message_slot_ownership_witness :
    (handle_result_state initState []).state.battery_primary
        = initState.state.battery_primary
  ∧ (handle_result_state initState []).state.battery_secondary
        = initState.state.battery_secondary
  ∧ (handle_result_state initState []).state.motor = initState.state.motor
  ∧ (handle_result_state initState []).state.assist = initState.state.assist
  ∧ (handle_result_state initState []).state.ebm = initState.state.ebm := by
  have h := handle_message_slot_ownership initState []
  exact ⟨(h.1 (by decide)).1, (h.1 (by decide)).2, h.2.1 (by decide),
    h.2.2.1 (by decide), h.2.2.2 (by decide)⟩
